import Mathlib

/-!
Verification of the AliExpress scraper (crawl orchestration and extraction
pipeline) against its natural-language specification.  Every definition in
this file is a shallow embedding of a function of the repository:

* `retryGo` / `retryRun`       — `exponential_backoff_retry` (utils.py)
* `parse_product_id`           — `parse_product_id` (parsers.py)
* rating normalisation         — the rating loop of `scrape_seller_sf`
                                 (scrapfly_adapter.py)
* `processItems` / `discoverLoop` — `discover_sellers` (search.py)
* `search_products_sf`         — `search_products_sf` (scrapfly_adapter.py)
* `runScraper` / `scraper_run` — `Scraper.run` (main.py)
* `runTrace`                   — the acquire/fetch/release event structure of
                                 `Scraper.run` and `discover_sellers`

Network effects are abstracted by oracles (`Nat → Except E T` for the retried
operation, page-content oracles for fetches); sleeps and logging do not affect
returned values and are omitted.
-/

namespace AliExpress

/-! ## Retry policy (`exponential_backoff_retry`, utils.py lines 43-72) -/

/-- Result of one call of the wrapper produced by `exponential_backoff_retry`:
the wrapped operation's value together with the number of invocations made,
or the last recorded exception together with the number of invocations, or a
failure of the wrapper's own `assert last_exc is not None`. -/
inductive RetryResult (E T : Type) where
  | ok (v : T) (calls : Nat)
  | err (e : E) (calls : Nat)
  | assertFail
deriving DecidableEq

/-- The `for attempt in range(retries)` loop of the wrapper in
`exponential_backoff_retry` (utils.py).  `op k` is the outcome of the k-th
invocation of the wrapped coroutine, `attempt` the current loop index,
`remaining` the loop iterations left, `last` mirrors `last_exc`.  The jittered
sleeps between attempts do not affect the returned value and are omitted. -/
def retryGo (op : Nat → Except E T) : Nat → Nat → Option E → RetryResult E T
  | attempt, 0, last =>
    match last with
    | some e => .err e attempt
    | none => .assertFail
  | attempt, remaining + 1, _last =>
    match op attempt with
    | .ok v => .ok v (attempt + 1)
    | .error e => retryGo op (attempt + 1) remaining (some e)

/-- `exponential_backoff_retry(retries = n)` applied to an operation. -/
def retryRun (op : Nat → Except E T) (retries : Nat) : RetryResult E T :=
  retryGo op 0 retries none

theorem retryGo_succ (op : Nat → Except E T) (a r : Nat) (l : Option E) :
    retryGo op a (r + 1) l = match op a with
      | .ok v => RetryResult.ok v (a + 1)
      | .error e => retryGo op (a + 1) r (some e) := rfl

theorem retryGo_ok_step (op : Nat → Except E T) (a r : Nat) (l : Option E)
    (v : T) (h : op a = .ok v) : retryGo op a (r + 1) l = .ok v (a + 1) := by
  rw [retryGo_succ, h]

theorem retryGo_err_step (op : Nat → Except E T) (a r : Nat) (l : Option E)
    (e : E) (h : op a = .error e) :
    retryGo op a (r + 1) l = retryGo op (a + 1) r (some e) := by
  rw [retryGo_succ, h]

theorem retryGo_all_err (op : Nat → Except E T) (es : Nat → E) :
    ∀ (r a : Nat) (l : Option E),
      (∀ k, a ≤ k → k < a + (r + 1) → op k = .error (es k)) →
      retryGo op a (r + 1) l = .err (es (a + r)) (a + r + 1) := by
  intro r
  induction r with
  | zero =>
    intro a l hall
    have ha : op a = .error (es a) := hall a le_rfl (by omega)
    rw [retryGo_err_step op a 0 l (es a) ha]
    simp [retryGo]
  | succ r ih =>
    intro a l hall
    have ha : op a = .error (es a) := hall a le_rfl (by omega)
    rw [retryGo_err_step op a (r + 1) l (es a) ha]
    have h2 := ih (a + 1) (some (es a)) (fun k hk1 hk2 => hall k (by omega) (by omega))
    have e1 : a + 1 + r = a + (r + 1) := by omega
    rw [h2, e1]

theorem retryGo_no_assert (op : Nat → Except E T) :
    ∀ (r a : Nat) (l : Option E), (1 ≤ r ∨ l.isSome) →
      retryGo op a r l ≠ .assertFail := by
  intro r
  induction r with
  | zero =>
    intro a l hl
    rcases hl with h | h
    · omega
    · rcases l with _ | e
      · simp [Option.isSome] at h
      · simp [retryGo]
  | succ r ih =>
    intro a l _
    unfold retryGo
    cases hop : op a with
    | ok v => simp
    | error e => exact ih (a + 1) (some e) (Or.inr rfl)

/-- C3: an operation that fails twice then succeeds returns the success value
after exactly 3 invocations (when `retries ≥ 3`); an operation that fails on
every invocation is invoked exactly `retries` times (for `retries ≥ 1`) and
the wrapper then re-raises the original last exception unchanged. -/
theorem retry_attempt_counts (E T : Type) (op : Nat → Except E T) (n : Nat) :
    (∀ (e0 e1 : E) (v : T), 3 ≤ n → op 0 = .error e0 → op 1 = .error e1 →
      op 2 = .ok v → retryRun op n = .ok v 3) ∧
    (∀ es : Nat → E, 1 ≤ n → (∀ k, k < n → op k = .error (es k)) →
      retryRun op n = .err (es (n - 1)) n) := by
  constructor
  · intro e0 e1 v h3 h0 h1 h2
    obtain ⟨m, rfl⟩ : ∃ m, n = m + 3 := ⟨n - 3, by omega⟩
    show retryGo op 0 ((m + 2) + 1) none = .ok v 3
    rw [retryGo_err_step op 0 (m + 2) none e0 h0]
    show retryGo op 1 ((m + 1) + 1) (some e0) = .ok v 3
    rw [retryGo_err_step op 1 (m + 1) (some e0) e1 h1]
    exact retryGo_ok_step op 2 m (some e1) v h2
  · intro es h1 hall
    obtain ⟨r, rfl⟩ : ∃ r, n = r + 1 := ⟨n - 1, by omega⟩
    have h := retryGo_all_err op es r 0 none
      (fun k _ hk2 => hall k (by omega))
    simpa using h

/-- C10: with `retries = 0` the wrapped operation is never invoked (the result
does not depend on the operation at all) and the wrapper's
`assert last_exc is not None` fails; with `retries ≥ 1` that assertion never
fails. -/
theorem retry_zero_asserts (E T : Type) :
    (∀ op op' : Nat → Except E T,
      retryRun op 0 = .assertFail ∧ retryRun op 0 = retryRun op' 0) ∧
    (∀ (op : Nat → Except E T) (n : Nat), 1 ≤ n →
      retryRun op n ≠ .assertFail) := by
  constructor
  · intro op op'
    exact ⟨rfl, rfl⟩
  · intro op n hn
    exact retryGo_no_assert op n 0 none (Or.inl hn)

/-- A concrete operation that fails twice, then succeeds with value 7. -/
def opFlaky : Nat → Except String Nat :=
  fun k => if k < 2 then .error "transient" else .ok 7

/-- A concrete operation that fails on every invocation. -/
def opAlways : Nat → Except String Nat :=
  fun _ => .error "boom"

theorem retry_attempt_counts_witness :
    retryRun opFlaky 3 = .ok 7 3 ∧ retryRun opAlways 2 = .err "boom" 2 := by
  constructor
  · exact (retry_attempt_counts String Nat opFlaky 3).1 "transient" "transient" 7
      (by decide) rfl rfl rfl
  · exact (retry_attempt_counts String Nat opAlways 2).2 (fun _ => "boom")
      (by decide) (fun k _ => rfl)

theorem retry_zero_asserts_witness :
    retryRun opFlaky 0 = RetryResult.assertFail ∧
    retryRun opFlaky 1 ≠ RetryResult.assertFail := by
  exact ⟨((retry_zero_asserts String Nat).1 opFlaky opAlways).1,
    (retry_zero_asserts String Nat).2 opFlaky 1 (by decide)⟩

/-! ## Product-id parsing (`parse_product_id`, parsers.py lines 13-19)

`PRODUCT_ID_REGEX = re.compile(r"(?:/item/|item/)(\d{10,})")` and
`parse_product_id` returns `m.group(1)` of `PRODUCT_ID_REGEX.search(url)`,
or `None` when there is no match.  `re.search` tries successive start
positions left to right; at one position it first tries the alternative
`/item/`, then `item/`, and then requires a maximal run of at least ten
digits (the greedy `\d{10,}`), which it captures. -/

/-- The digit class `\d` of the pattern (ASCII digits). -/
def isDig : Char → Bool := Char.isDigit

/-- The literal `item/` of the pattern. -/
def itemSeg : List Char := ['i', 't', 'e', 'm', '/']

/-- The `\d{10,}` tail of the pattern at the current position: the maximal
digit run, required to have length at least 10 and captured as group 1. -/
def digitRunAfter (l : List Char) : Option (List Char) :=
  let ds := l.takeWhile isDig
  if 10 ≤ ds.length then some ds else none

/-- One attempt of the pattern at a fixed start position: alternative
`/item/` first, then `item/`, then the captured digit run. -/
def tryAt (l : List Char) : Option (List Char) :=
  if ('/' :: itemSeg).isPrefixOf l then digitRunAfter (l.drop 6)
  else if itemSeg.isPrefixOf l then digitRunAfter (l.drop 5)
  else none

/-- `re.search`: try each start position from the left. -/
def searchItem : List Char → Option (List Char)
  | [] => none
  | c :: rest =>
    match tryAt (c :: rest) with
    | some g => some g
    | none => searchItem rest

/-- `parse_product_id` (parsers.py): group 1 of the first match, if any. -/
def parse_product_id (url : String) : Option String :=
  (searchItem url.data).map (fun ds => String.mk ds)

theorem takeWhile_all (p : α → Bool) (l : List α) :
    (l.takeWhile p).all p = true := by
  induction l with
  | nil => rfl
  | cons a t ih =>
    rw [List.takeWhile_cons]
    by_cases h : p a
    · simp [h, ih]
    · simp [h]

theorem dropWhile_head_not (p : α → Bool) (l : List α) :
    ∀ c, (l.dropWhile p).head? = some c → p c = false := by
  induction l with
  | nil => intro c h; simp at h
  | cons a t ih =>
    intro c h
    rw [List.dropWhile_cons] at h
    by_cases hp : p a
    · rw [if_pos hp] at h
      exact ih c h
    · rw [if_neg hp] at h
      simp only [List.head?_cons, Option.some.injEq] at h
      subst h
      rw [Bool.not_eq_true] at hp
      exact hp

theorem takeWhile_append_of_all (p : α → Bool) (ds rest : List α)
    (h : ds.all p = true) :
    (ds ++ rest).takeWhile p = ds ++ rest.takeWhile p := by
  induction ds with
  | nil => simp
  | cons a t ih =>
    simp only [List.all_cons, Bool.and_eq_true] at h
    simp [List.takeWhile_cons, h.1, ih h.2]

theorem digitRunAfter_eq_some (l ds : List Char) (h : digitRunAfter l = some ds) :
    ds = l.takeWhile isDig ∧ 10 ≤ ds.length := by
  simp only [digitRunAfter] at h
  split at h
  · exact ⟨(Option.some.inj h).symm, by
      obtain rfl := (Option.some.inj h).symm
      assumption⟩
  · cases h

theorem tryAt_some (l ds : List Char) (h : tryAt l = some ds) :
    ds.all isDig = true ∧ 10 ≤ ds.length ∧
    ∃ pre post, l = pre ++ itemSeg ++ ds ++ post ∧
      (∀ c, post.head? = some c → isDig c = false) := by
  unfold tryAt at h
  by_cases h1 : ('/' :: itemSeg).isPrefixOf l
  · rw [if_pos h1] at h
    obtain ⟨t, ht⟩ := List.isPrefixOf_iff_prefix.mp h1
    obtain ⟨hds, hlen⟩ := digitRunAfter_eq_some _ _ h
    have hdrop : l.drop 6 = t := by
      rw [← ht]
      exact List.drop_left ('/' :: itemSeg) t
    rw [hdrop] at hds
    subst hds
    refine ⟨takeWhile_all _ _, hlen, ['/'], t.dropWhile isDig, ?_, ?_⟩
    · rw [← ht]
      have := (List.takeWhile_append_dropWhile (p := isDig) (l := t)).symm
      calc ('/' :: itemSeg) ++ t
          = ('/' :: itemSeg) ++ (t.takeWhile isDig ++ t.dropWhile isDig) := by
            rw [List.takeWhile_append_dropWhile]
        _ = ['/'] ++ itemSeg ++ t.takeWhile isDig ++ t.dropWhile isDig := by
            simp [List.append_assoc]
    · exact dropWhile_head_not isDig t
  · rw [if_neg h1] at h
    by_cases h2 : itemSeg.isPrefixOf l
    · rw [if_pos h2] at h
      obtain ⟨t, ht⟩ := List.isPrefixOf_iff_prefix.mp h2
      obtain ⟨hds, hlen⟩ := digitRunAfter_eq_some _ _ h
      have hdrop : l.drop 5 = t := by
        rw [← ht]
        exact List.drop_left itemSeg t
      rw [hdrop] at hds
      subst hds
      refine ⟨takeWhile_all _ _, hlen, [], t.dropWhile isDig, ?_, ?_⟩
      · rw [← ht]
        calc itemSeg ++ t
            = itemSeg ++ (t.takeWhile isDig ++ t.dropWhile isDig) := by
              rw [List.takeWhile_append_dropWhile]
          _ = [] ++ itemSeg ++ t.takeWhile isDig ++ t.dropWhile isDig := by
              simp [List.append_assoc]
      · exact dropWhile_head_not isDig t
    · rw [if_neg h2] at h
      cases h

theorem searchItem_cons (c : Char) (rest : List Char) :
    searchItem (c :: rest) = match tryAt (c :: rest) with
      | some g => some g
      | none => searchItem rest := rfl

theorem searchItem_some (l ds : List Char) (h : searchItem l = some ds) :
    ds.all isDig = true ∧ 10 ≤ ds.length ∧
    ∃ pre post, l = pre ++ itemSeg ++ ds ++ post ∧
      (∀ c, post.head? = some c → isDig c = false) := by
  induction l with
  | nil => simp [searchItem] at h
  | cons c rest ih =>
    rw [searchItem_cons] at h
    cases htry : tryAt (c :: rest) with
    | some g =>
      rw [htry] at h
      obtain rfl : g = ds := Option.some.inj h
      exact tryAt_some _ _ htry
    | none =>
      rw [htry] at h
      obtain ⟨hall, hlen, pre, post, heq, hpost⟩ := ih h
      exact ⟨hall, hlen, c :: pre, post, by simp [heq, List.append_assoc], hpost⟩

theorem searchItem_none (l : List Char) (h : searchItem l = none) :
    ¬ ∃ pre ds post, l = pre ++ itemSeg ++ ds ++ post ∧
      ds.all isDig = true ∧ 10 ≤ ds.length := by
  induction l with
  | nil =>
    rintro ⟨pre, ds, post, heq, _hall, hlen⟩
    have := congrArg List.length heq
    simp [itemSeg] at this
    omega
  | cons c rest ih =>
    rw [searchItem_cons] at h
    cases htry : tryAt (c :: rest) with
    | some g => rw [htry] at h; cases h
    | none =>
      rw [htry] at h
      rintro ⟨pre, ds, post, heq, hall, hlen⟩
      cases pre with
      | cons p pre' =>
        rw [List.cons_append, List.cons_append, List.cons_append] at heq
        obtain ⟨_, hrest⟩ := List.cons.inj heq
        exact ih h ⟨pre', ds, post, by simpa [List.append_assoc] using hrest, hall, hlen⟩
      | nil =>
        rw [List.nil_append] at heq
        have hl : c :: rest = itemSeg ++ (ds ++ post) := by
          rw [heq, List.append_assoc]
        unfold tryAt at htry
        by_cases hp1 : ('/' :: itemSeg).isPrefixOf (c :: rest)
        · obtain ⟨t, ht⟩ := List.isPrefixOf_iff_prefix.mp hp1
          rw [hl] at ht
          simp only [itemSeg, List.cons_append, List.nil_append] at ht
          exact absurd (List.cons.inj ht).1 (by decide)
        · rw [if_neg hp1] at htry
          have hp2 : itemSeg.isPrefixOf (c :: rest) := by
            refine List.isPrefixOf_iff_prefix.mpr ⟨ds ++ post, ?_⟩
            rw [hl]
          rw [if_pos hp2] at htry
          have hdrop : (c :: rest).drop 5 = ds ++ post := by
            rw [hl]
            exact List.drop_left itemSeg (ds ++ post)
          rw [hdrop] at htry
          simp only [digitRunAfter] at htry
          rw [takeWhile_append_of_all isDig ds post hall] at htry
          have : 10 ≤ (ds ++ post.takeWhile isDig).length := by
            rw [List.length_append]
            omega
          rw [if_pos this] at htry
          cases htry

/-- C7: for every URL matching the product-path pattern (`item/` followed by a
run of at least ten digits), `parse_product_id` returns exactly that digit
run (the maximal digit run after an occurrence of `item/`); for every URL
not matching the pattern it returns `None`. -/
theorem parse_product_id_spec (url : String) :
    (∃ s : String, parse_product_id url = some s ∧ s.data.all isDig = true ∧
      10 ≤ s.data.length ∧
      ∃ pre post, url.data = pre ++ itemSeg ++ s.data ++ post ∧
        (∀ c, post.head? = some c → isDig c = false)) ∨
    (parse_product_id url = none ∧
      ¬ ∃ pre ds post, url.data = pre ++ itemSeg ++ ds ++ post ∧
        ds.all isDig = true ∧ 10 ≤ ds.length) := by
  cases hs : searchItem url.data with
  | some ds =>
    left
    obtain ⟨h1, h2, pre, post, h3, h4⟩ := searchItem_some _ _ hs
    refine ⟨String.mk ds, ?_, h1, h2, pre, post, h3, h4⟩
    unfold parse_product_id
    rw [hs]
    rfl
  | none =>
    right
    constructor
    · unfold parse_product_id
      rw [hs]
      rfl
    · exact searchItem_none _ hs

/-! ## Seller-rating normalisation (`scrape_seller_sf`, scrapfly_adapter.py
lines 683-697)

For each candidate text (first five only), the code runs
`re.search(r"(\d+\.?\d*)(?:%|/5)", text)`; on the first text with a match it
converts group 1 with `float`, keeps values `≤ 5` as-is, divides values
`≤ 100` by 20, drops values above 100 (rating stays `None`), and breaks.
Floats are modelled as exact rationals (all decimal values and comparisons
involved are exact). -/

/-- One attempt of the rating pattern at a fixed start position: the greedy
`\d+`, an optional `.`, the greedy `\d*`, then the required `%` or `/5`
(no other backtracking path of this pattern can succeed, since every
shortened digit run ends in front of another digit).  Returns group 1. -/
def ratingMatchAt (l : List Char) : Option (List Char) :=
  let d1 := l.takeWhile isDig
  if d1.isEmpty then none
  else
    match l.drop d1.length with
    | '.' :: l2 =>
      let d2 := l2.takeWhile isDig
      let l3 := l2.drop d2.length
      if l3.head? = some '%' ∨ ['/', '5'].isPrefixOf l3 then
        some (d1 ++ '.' :: d2)
      else none
    | l1 =>
      if l1.head? = some '%' ∨ ['/', '5'].isPrefixOf l1 then some d1
      else none

/-- `re.search` for the rating pattern: try each start position. -/
def ratingSearch : List Char → Option (List Char)
  | [] => none
  | c :: rest =>
    match ratingMatchAt (c :: rest) with
    | some g => some g
    | none => ratingSearch rest

/-- Value of a run of decimal digits. -/
def digitsVal (l : List Char) : Nat :=
  l.foldl (fun a c => a * 10 + (c.toNat - '0'.toNat)) 0

/-- Python `float()` on a group of shape `\d+(\.\d*)?`, as an exact
rational. -/
def decToRat (l : List Char) : Rat :=
  let ip := l.takeWhile (fun c => c ≠ '.')
  match l.drop ip.length with
  | '.' :: fp => (digitsVal ip : Rat) + (digitsVal fp : Rat) / ((10 : Rat) ^ fp.length)
  | _ => (digitsVal ip : Rat)

/-- The `for text in rating_text[:5]` loop body: on the first text with a
match, scale the value (`≤ 5` kept, `≤ 100` divided by 20, else rejected)
and break. -/
def sellerRatingGo : List String → Option Rat
  | [] => none
  | t :: ts =>
    match ratingSearch t.data with
    | some g =>
      let v := decToRat g
      if v ≤ 5 then some v else if v ≤ 100 then some (v / 20) else none
    | none => sellerRatingGo ts

/-- Rating extraction of `scrape_seller_sf` over the candidate texts found on
the page (only the first five are examined). -/
def seller_rating_from_texts (texts : List String) : Option Rat :=
  sellerRatingGo (texts.take 5)

/-- C6: seller-rating extraction normalises as the spec's examples require:
`"95%"` is rescaled to 4.75, `"4.8/5"` is kept as 4.8, and `"107%"` is
rejected as out of range, leaving the rating absent. -/
theorem seller_rating_normalization :
    seller_rating_from_texts ["95%"] = some (4.75 : Rat) ∧
    seller_rating_from_texts ["4.8/5"] = some (4.8 : Rat) ∧
    seller_rating_from_texts ["107%"] = none := by
  refine ⟨?_, ?_, ?_⟩
  · have e1 : seller_rating_from_texts ["95%"] =
        (if decToRat ['9', '5'] ≤ 5 then some (decToRat ['9', '5'])
         else if decToRat ['9', '5'] ≤ 100 then some (decToRat ['9', '5'] / 20)
         else none) := rfl
    have e2 : decToRat ['9', '5'] = ((95 : Nat) : Rat) := by
      have h : digitsVal ['9', '5'] = 95 := rfl
      show ((digitsVal ['9', '5'] : Nat) : Rat) = ((95 : Nat) : Rat)
      rw [h]
    rw [e1, e2]
    rw [if_neg (by norm_num), if_pos (by norm_num)]
    norm_num
  · have e1 : seller_rating_from_texts ["4.8/5"] =
        (if decToRat ['4', '.', '8'] ≤ 5 then some (decToRat ['4', '.', '8'])
         else if decToRat ['4', '.', '8'] ≤ 100 then some (decToRat ['4', '.', '8'] / 20)
         else none) := rfl
    have e2 : decToRat ['4', '.', '8'] =
        ((digitsVal ['4'] : Rat) + (digitsVal ['8'] : Rat) / ((10 : Rat) ^ (1 : Nat))) := rfl
    have e3 : ((digitsVal ['4'] : Rat) + (digitsVal ['8'] : Rat) / ((10 : Rat) ^ (1 : Nat)))
        = (4.8 : Rat) := by
      have h4 : digitsVal ['4'] = 4 := rfl
      have h8 : digitsVal ['8'] = 8 := rfl
      rw [h4, h8]
      norm_num
    rw [e1, e2, e3]
    rw [if_pos (by norm_num)]
  · have e1 : seller_rating_from_texts ["107%"] =
        (if decToRat ['1', '0', '7'] ≤ 5 then some (decToRat ['1', '0', '7'])
         else if decToRat ['1', '0', '7'] ≤ 100 then some (decToRat ['1', '0', '7'] / 20)
         else none) := rfl
    have e2 : decToRat ['1', '0', '7'] = ((107 : Nat) : Rat) := by
      have h : digitsVal ['1', '0', '7'] = 107 := rfl
      show ((digitsVal ['1', '0', '7'] : Nat) : Rat) = ((107 : Nat) : Rat)
      rw [h]
    rw [e1, e2]
    rw [if_neg (by norm_num), if_neg (by norm_num)]

/-! ## Search discovery (`discover_sellers`, search.py lines 20-97)

A fetched search page is abstracted as `Option (Bool × List SearchItem)`:
`none` models a navigation failure that survives the local retry loop and
propagates (`PWError` re-raised), `some (ab, items)` a loaded page with its
anti-bot flag and the parsed result items.  A `SearchItem` carries the
resolved product `href` (after the two selector attempts; `none` and the
empty string are both falsy in Python), the seller-link URL, and the
seller-link text.  Politeness sleeps do not affect results and are
omitted.  Because the Python `while` loop has no page cap, the embedding
carries an explicit `fuel` bound on the number of pages fetched; `none` as
first component of the result means the loop was still running when `fuel`
pages had been fetched. -/

/-- One parsed search-result item. -/
structure SearchItem where
  href : Option String
  sellerUrl : Option String
  sellerName : String
deriving DecidableEq

/-- A discovery preview: `(seller_name, seller_url, product_urls)`. -/
abbrev Preview : Type := String × String × List String

/-- `seller_url.split("?")[0]`: the canonical grouping key — the characters
before the first `?` (the whole string when there is none). -/
def canonKey (u : String) : String :=
  String.mk (u.data.takeWhile (fun c => c ≠ '?'))

/-- Python `str.strip()`: drop whitespace from both ends. -/
def stripStr (s : String) : String :=
  String.mk (((s.data.dropWhile Char.isWhitespace).reverse.dropWhile
    Char.isWhitespace).reverse)

/-- The `for i, (sn, su, urls) in enumerate(sellers)` repair loop: append
`href` to the first entry whose URL equals `key`, unless already present. -/
def appendToEntry : List Preview → String → String → List Preview
  | [], _, _ => []
  | (sn, su, urls) :: rest, key, h =>
    if su = key ∧ h ∉ urls then (sn, su, urls ++ [h]) :: rest
    else (sn, su, urls) :: appendToEntry rest key h

/-- The `for item in items` loop of `discover_sellers`: state is
`(processed, seen_sellers, sellers)`. -/
def processItems (limit : Nat) :
    List SearchItem → Nat → List String → List Preview →
    Nat × List String × List Preview
  | [], processed, seen, sellers => (processed, seen, sellers)
  | it :: rest, processed, seen, sellers =>
    if limit ≤ processed then (processed, seen, sellers)
    else
      match it.href with
      | none => processItems limit rest processed seen sellers
      | some h =>
        if h = "" then processItems limit rest processed seen sellers
        else
          match it.sellerUrl with
          | none => processItems limit rest processed seen sellers
          | some su =>
            if su = "" then processItems limit rest processed seen sellers
            else
              let key := canonKey su
              if key ∈ seen then
                processItems limit rest (processed + 1) seen (appendToEntry sellers key h)
              else
                processItems limit rest (processed + 1) (seen ++ [key])
                  (sellers ++ [(stripStr it.sellerName, key, [h])])

/-- Failure modes of discovery that propagate out of `discover_sellers`. -/
inductive DiscoverErr where
  | nav
  | antibot
deriving DecidableEq

/-- The `while processed < limit and len(sellers) < max_suppliers` loop.
The second component counts the pages fetched so far; a `none` first
component means the loop had not returned after fetching `fuel` pages. -/
def discoverLoop (pages : Nat → Option (Bool × List SearchItem)) (limit maxSup : Nat) :
    Nat → Nat → Nat → List String → List Preview → Nat →
    Option (Except DiscoverErr (List Preview)) × Nat
  | 0, _pageNum, _processed, _seen, _sellers, fetched => (none, fetched)
  | fuel + 1, pageNum, processed, seen, sellers, fetched =>
    if processed < limit ∧ sellers.length < maxSup then
      match pages pageNum with
      | none => (some (.error .nav), fetched + 1)
      | some (ab, items) =>
        if ab then (some (.error .antibot), fetched + 1)
        else
          let st := processItems limit items processed seen sellers
          discoverLoop pages limit maxSup fuel (pageNum + 1) st.1 st.2.1 st.2.2 (fetched + 1)
    else (some (.ok (sellers.take maxSup)), fetched)

/-- `discover_sellers(page, query, limit=..., max_suppliers=...)`. -/
def discover_sellers (pages : Nat → Option (Bool × List SearchItem))
    (limit maxSup fuel : Nat) :
    Option (Except DiscoverErr (List Preview)) × Nat :=
  discoverLoop pages limit maxSup fuel 1 0 [] [] 0

/-! ## Scrapfly search backend (`search_products_sf`, scrapfly_adapter.py
lines 44-96) -/

/-- One item of the hidden-JSON item list of a search page. -/
structure SfItem where
  productId : Option String
  title : Option String
deriving DecidableEq

/-- One preview dict produced by `search_products_sf`. -/
structure SfProduct where
  productId : String
  url : String
  title : Option String
deriving DecidableEq

/-- `fetch_page`: keep items with a truthy `productId` and build the
preview dict. -/
def sfFetchPage (pages : Nat → List SfItem) (n : Nat) : List SfProduct :=
  (pages n).filterMap fun it =>
    match it.productId with
    | none => none
    | some pid =>
      if pid = "" then none
      else some ⟨pid, "https://www.aliexpress.com/item/" ++ pid ++ ".html", it.title⟩

/-- The `while len(results) < limit and page <= 3` loop of
`search_products_sf`, starting from page 2.  The guard `page ≤ 3` bounds
the loop to two iterations, so fuel 2 is exact.  Second component counts
fetched pages. -/
def sfGo (pages : Nat → List SfItem) (limit : Nat) :
    Nat → Nat → List SfProduct → Nat → List SfProduct × Nat
  | 0, _page, acc, fetched => (acc, fetched)
  | fuel + 1, page, acc, fetched =>
    if acc.length < limit ∧ page ≤ 3 then
      sfGo pages limit fuel (page + 1) (acc ++ sfFetchPage pages page) (fetched + 1)
    else (acc, fetched)

/-- `search_products_sf`: fetch page 1, then pages 2 and 3 at most, and
truncate the previews to `limit`. -/
def search_products_sf (pages : Nat → List SfItem) (limit : Nat) :
    List SfProduct × Nat :=
  let r := sfGo pages limit 2 2 (sfFetchPage pages 1) 1
  (r.1.take limit, r.2)

theorem discoverLoop_succ (pages : Nat → Option (Bool × List SearchItem))
    (limit maxSup fuel pageNum processed : Nat) (seen : List String)
    (sellers : List Preview) (fetched : Nat) :
    discoverLoop pages limit maxSup (fuel + 1) pageNum processed seen sellers fetched =
      if processed < limit ∧ sellers.length < maxSup then
        match pages pageNum with
        | none => (some (.error .nav), fetched + 1)
        | some (ab, items) =>
          if ab then (some (.error .antibot), fetched + 1)
          else
            let st := processItems limit items processed seen sellers
            discoverLoop pages limit maxSup fuel (pageNum + 1) st.1 st.2.1 st.2.2 (fetched + 1)
      else (some (.ok (sellers.take maxSup)), fetched) := rfl

theorem discoverLoop_exit (pages : Nat → Option (Bool × List SearchItem))
    (limit maxSup fuel pageNum processed : Nat) (seen : List String)
    (sellers : List Preview) (fetched : Nat)
    (hcond : ¬(processed < limit ∧ sellers.length < maxSup)) (hfuel : 1 ≤ fuel) :
    discoverLoop pages limit maxSup fuel pageNum processed seen sellers fetched =
      (some (.ok (sellers.take maxSup)), fetched) := by
  obtain ⟨f, rfl⟩ : ∃ f, fuel = f + 1 := ⟨fuel - 1, by omega⟩
  rw [discoverLoop_succ, if_neg hcond]

theorem sfGo_fetched_le (pages : Nat → List SfItem) (limit : Nat) :
    ∀ (fuel page : Nat) (acc : List SfProduct) (fetched : Nat),
      (sfGo pages limit fuel page acc fetched).2 ≤ fetched + fuel := by
  intro fuel
  induction fuel with
  | zero => intro page acc fetched; simp [sfGo]
  | succ fuel ih =>
    intro page acc fetched
    show (sfGo pages limit (fuel + 1) page acc fetched).2 ≤ fetched + (fuel + 1)
    rw [sfGo]
    by_cases h : acc.length < limit ∧ page ≤ 3
    · rw [if_pos h]
      calc (sfGo pages limit fuel (page + 1) (acc ++ sfFetchPage pages page) (fetched + 1)).2
          ≤ (fetched + 1) + fuel := ih (page + 1) _ (fetched + 1)
        _ = fetched + (fuel + 1) := by omega
    · rw [if_neg h]
      omega

/-- C5 counterexample: on pages that contain no attributable items, the
playwright discovery loop (search.py) is still running after fetching ten
search pages with `limit = 1`, `max_suppliers = 1` — there is no page cap
of 3 in `discover_sellers`. -/
theorem discovery_page_cap_cex :
    discover_sellers (fun _ => some (false, [])) 1 1 10 = (none, 10) := rfl

/-- C5 (amended): only the scrapfly search backend caps search pagination:
`search_products_sf` fetches at most 3 pages for every input; and the
playwright `discover_sellers` loop returns immediately, without fetching,
as soon as `processed < limit` or `previews < max_suppliers` fails — but
has no page cap while that condition holds. -/
theorem search_page_caps :
    (∀ (pages : Nat → List SfItem) (limit : Nat),
      (search_products_sf pages limit).2 ≤ 3) ∧
    (∀ (pages : Nat → Option (Bool × List SearchItem))
      (limit maxSup fuel pageNum processed : Nat)
      (seen : List String) (sellers : List Preview) (fetched : Nat),
      ¬(processed < limit ∧ sellers.length < maxSup) → 1 ≤ fuel →
      discoverLoop pages limit maxSup fuel pageNum processed seen sellers fetched =
        (some (.ok (sellers.take maxSup)), fetched)) := by
  constructor
  · intro pages limit
    show (sfGo pages limit 2 2 (sfFetchPage pages 1) 1).2 ≤ 3
    calc (sfGo pages limit 2 2 (sfFetchPage pages 1) 1).2
        ≤ 1 + 2 := sfGo_fetched_le pages limit 2 2 _ 1
      _ = 3 := rfl
  · intro pages limit maxSup fuel pageNum processed seen sellers fetched hcond hfuel
    exact discoverLoop_exit pages limit maxSup fuel pageNum processed seen sellers
      fetched hcond hfuel

theorem search_page_caps_witness :
    (search_products_sf (fun _ => [⟨some "1005001234567890", none⟩]) 5).2 ≤ 3 ∧
    discoverLoop (fun _ => some (false, [])) 0 5 4 1 0 [] [] 0 =
      (some (.ok ([].take 5)), 0) := by
  exact ⟨search_page_caps.1 (fun _ => [⟨some "1005001234567890", none⟩]) 5,
    search_page_caps.2 (fun _ => some (false, [])) 0 5 4 1 0 [] [] 0
      (by simp) (by omega)⟩

/-- C4: two search-result items whose seller URLs canonicalize (query string
stripped) to the same key but whose product URLs differ produce exactly one
seller entry in the discovery output, whose product-URL list holds both URLs
in first-seen order with no duplicate (here with `limit = 2` so both items
are processed, any `max_suppliers ≥ 1`, and both items attributable). -/
theorem discovery_dedup (a b : SearchItem) (ha hb sua sub : String)
    (maxSup fuel : Nat)
    (hahref : a.href = some ha) (hane : ha ≠ "")
    (hasu : a.sellerUrl = some sua) (hsune : sua ≠ "")
    (hbhref : b.href = some hb) (hbne : hb ≠ "")
    (hbsu : b.sellerUrl = some sub) (hsbne : sub ≠ "")
    (hkey : canonKey sub = canonKey sua) (hdiff : hb ≠ ha)
    (hmax : 1 ≤ maxSup) (hfuel : 2 ≤ fuel) :
    discover_sellers (fun _ => some (false, [a, b])) 2 maxSup fuel =
      (some (.ok [(stripStr a.sellerName, canonKey sua, [ha, hb])]), 1) := by
  obtain ⟨f, rfl⟩ : ∃ f, fuel = f + 2 := ⟨fuel - 2, by omega⟩
  have hpi : processItems 2 [a, b] 0 [] [] =
      (2, [canonKey sua], [(stripStr a.sellerName, canonKey sua, [ha, hb])]) := by
    simp only [processItems, hahref, hasu, hbhref, hbsu, hkey]
    simp [hane, hsune, hbne, hsbne, hdiff, appendToEntry]
  show discoverLoop (fun _ => some (false, [a, b])) 2 maxSup ((f + 1) + 1) 1 0 [] [] 0 =
    (some (.ok [(stripStr a.sellerName, canonKey sua, [ha, hb])]), 1)
  rw [discoverLoop_succ]
  rw [if_pos (⟨by omega, by simpa using hmax⟩ :
    (0 : Nat) < 2 ∧ ([] : List Preview).length < maxSup)]
  show discoverLoop (fun _ => some (false, [a, b])) 2 maxSup (f + 1) 2
      (processItems 2 [a, b] 0 [] []).1 (processItems 2 [a, b] 0 [] []).2.1
      (processItems 2 [a, b] 0 [] []).2.2 1 =
    (some (.ok [(stripStr a.sellerName, canonKey sua, [ha, hb])]), 1)
  rw [hpi]
  rw [discoverLoop_exit _ 2 maxSup (f + 1) 2 2 _ _ 1 (by omega) (by omega)]
  obtain ⟨m, rfl⟩ : ∃ m, maxSup = m + 1 := ⟨maxSup - 1, by omega⟩
  simp

theorem discovery_dedup_witness :
    discover_sellers (fun _ => some (false,
      [⟨some "https://x/item/1005001111111111.html",
        some "https://aliexpress.com/store/77?spm=2", "Shop A"⟩,
       ⟨some "https://x/item/1005002222222222.html",
        some "https://aliexpress.com/store/77?gw=1", " Shop B "⟩])) 2 5 2 =
      (some (.ok [("Shop A", "https://aliexpress.com/store/77",
        ["https://x/item/1005001111111111.html",
         "https://x/item/1005002222222222.html"])]), 1) := by
  have h := discovery_dedup
    ⟨some "https://x/item/1005001111111111.html",
      some "https://aliexpress.com/store/77?spm=2", "Shop A"⟩
    ⟨some "https://x/item/1005002222222222.html",
      some "https://aliexpress.com/store/77?gw=1", " Shop B "⟩
    "https://x/item/1005001111111111.html" "https://x/item/1005002222222222.html"
    "https://aliexpress.com/store/77?spm=2" "https://aliexpress.com/store/77?gw=1"
    5 2 rfl (by decide) rfl (by decide) rfl (by decide) rfl (by decide)
    (by decide) (by decide) (by decide) (by decide)
  exact h.trans rfl

/-! ## Data model (models.py) and crawl scheduler (`Scraper.run`, main.py)

`Product`, `Seller` and `ScrapeResult` mirror the dataclasses of models.py
(the `last_scraped`/`scrape_time` wall-clock timestamps and the always-empty
sku/shipping fields are omitted; floats are exact rationals).  Fetch+extract
of a single page is abstracted by an oracle from the URL to a `PageResult`:
`ok` carries the fields the selectors of product.py / seller.py extracted,
`antibot` models `AntiBotDetected` raised after the content check, and `err`
models any other exception escaping the unit (e.g. `PWError` re-raised after
the three navigation attempts).  `asyncio.gather` over products uses
`return_exceptions=True`, so product tasks are folded in submission order
with exceptions skipped; the outer gather over sellers uses
`return_exceptions=False`, so the first seller exception propagates out of
`Scraper.run`. -/

/-- models.py `Product` (fields used by the pipeline). -/
structure Product where
  product_title : String
  product_url : String
  product_id : String
  price : Option String
  currency : Option String
  rating : Option Rat
  num_ratings : Option Nat
  num_orders : Option Nat
  image_urls : List String
deriving DecidableEq

/-- models.py `Seller` (fields used by the pipeline). -/
structure Seller where
  seller_name : String
  seller_url : String
  seller_rating : Option Rat
  num_followers : Option Nat
  store_location : Option String
  seller_badges : List String
  years_on_platform : Option Nat
  total_reviews : Option Nat
  products : List Product
deriving DecidableEq

/-- models.py `ScrapeResult` (without the wall-clock `scrape_time`). -/
structure ScrapeResult where
  query : String
  suppliers : List Seller
deriving DecidableEq

/-- config.py `Config` (the fields `Scraper.run` reads). -/
structure Config where
  query : String
  limit : Nat
  max_suppliers : Nat
  max_products_per_seller : Nat
  abort_on_antibot : Bool
  concurrency : Nat

/-- Fields extracted from a product page by the selectors of
`scrape_product` (product.py). -/
structure ProductPage where
  title : Option String
  price : Option String
  currency : Option String
  rating : Option Rat
  numRatings : Option Nat
  numOrders : Option Nat
  images : List String
deriving DecidableEq

/-- Fields extracted from a seller page by the selectors of
`scrape_seller` (seller.py). -/
structure SellerPage where
  rating : Option Rat
  followers : Option Nat
  location : Option String
  badges : List String
  years : Option Nat
  totalReviews : Option Nat
deriving DecidableEq

/-- Outcome of fetching and inspecting one page. -/
inductive PageResult (α : Type) where
  | ok (a : α)
  | antibot
  | err
deriving DecidableEq

/-- Exceptions escaping a unit task of the scheduler. -/
inductive RunExn where
  | antibot
  | other
deriving DecidableEq

/-- The `Product(...)` construction of `scrape_product` (product.py lines
31-63): `product_id` is `parse_product_id(url) or ""` and `product_title`
is the first extracted text `or ""`; every other field stays optional. -/
def mkProduct (url : String) (pg : ProductPage) : Product :=
  { product_title := pg.title.getD ""
    product_url := url
    product_id := (parse_product_id url).getD ""
    price := pg.price
    currency := pg.currency
    rating := pg.rating
    num_ratings := pg.numRatings
    num_orders := pg.numOrders
    image_urls := pg.images }

/-- `scrape_product(page, url)` (product.py): navigation failure after the
retry loop raises, an anti-bot page raises `AntiBotDetected`, and otherwise
a `Product` is always constructed and returned. -/
def scrape_product (pOut : String → PageResult ProductPage) (url : String) :
    Except RunExn Product :=
  match pOut url with
  | .err => .error .other
  | .antibot => .error .antibot
  | .ok pg => .ok (mkProduct url pg)

/-- `scrape_seller(page, seller_name, seller_url)` (seller.py): same failure
modes; on success a `Seller` with an empty product list. -/
def scrape_seller (sOut : String → PageResult SellerPage) (n u : String) :
    Except RunExn Seller :=
  match sOut u with
  | .err => .error .other
  | .antibot => .error .antibot
  | .ok sp =>
    .ok { seller_name := n
          seller_url := u
          seller_rating := sp.rating
          num_followers := sp.followers
          store_location := sp.location
          seller_badges := sp.badges
          years_on_platform := sp.years
          total_reviews := sp.totalReviews
          products := [] }

/-- The `asyncio.gather(..., return_exceptions=True)` aggregation of
`handle_seller`: failed product tasks are logged and skipped, successful
ones appended in submission order. -/
def gatherOk (rs : List (Except RunExn Product)) : List Product :=
  rs.filterMap fun r =>
    match r with
    | .ok p => some p
    | .error _ => none

/-- `handle_seller` (main.py lines 72-97): scrape the seller page, truncate
the preview's product URLs to `max_products_per_seller`, scrape each
retained URL, and append the successful products to the seller. -/
def handle_seller (cfg : Config) (sOut : String → PageResult SellerPage)
    (pOut : String → PageResult ProductPage) (n u : String) (ps : List String) :
    Except RunExn Seller :=
  match scrape_seller sOut n u with
  | .error e => .error e
  | .ok seller =>
    let urls := ps.take cfg.max_products_per_seller
    .ok { seller with products := gatherOk (urls.map (scrape_product pOut)) }

/-- `Except.ok` projection (the view the aggregate takes of a finished
seller task). -/
def exceptOk (r : Except RunExn Seller) : Option Seller :=
  match r with
  | .ok s => some s
  | .error _ => none

/-- `safe_handle_seller` (main.py lines 99-105): only `AntiBotDetected` is
caught, and only when `abort_on_antibot` is false; every other exception
propagates. -/
def safe_handle_seller (cfg : Config) (sOut : String → PageResult SellerPage)
    (pOut : String → PageResult ProductPage) (n u : String) (ps : List String) :
    Except RunExn (Option Seller) :=
  match handle_seller cfg sOut pOut n u ps with
  | .ok s => .ok (some s)
  | .error .antibot =>
    if cfg.abort_on_antibot then .error .antibot else .ok none
  | .error .other => .error .other

/-- The `asyncio.gather(..., return_exceptions=False)` over the seller tasks
(main.py line 107): the first exception propagates out of `run`; otherwise
each completed seller is appended to `result.suppliers`. -/
def gatherSellers (cfg : Config) (sOut : String → PageResult SellerPage)
    (pOut : String → PageResult ProductPage) :
    List (String × String × List String) → Except RunExn (List Seller)
  | [] => .ok []
  | (n, u, ps) :: rest =>
    match safe_handle_seller cfg sOut pOut n u ps with
    | .error e => .error e
    | .ok s? =>
      match gatherSellers cfg sOut pOut rest with
      | .error e => .error e
      | .ok tl =>
        .ok (match s? with
          | some s => s :: tl
          | none => tl)

/-- `Scraper.run` from the point where `sellers_info` is available. -/
def runScraper (cfg : Config) (info : List (String × String × List String))
    (sOut : String → PageResult SellerPage)
    (pOut : String → PageResult ProductPage) : Except RunExn ScrapeResult :=
  match gatherSellers cfg sOut pOut info with
  | .error e => .error e
  | .ok ss => .ok { query := cfg.query, suppliers := ss }

/-- `Scraper.run` (main.py lines 47-112) end to end: discovery first (an
anti-bot there aborts the run when `abort_on_antibot`, else continues with
no sellers; a navigation failure is run-fatal), then the seller fan-out.
`none` means the discovery loop was still running after `fuel` pages. -/
def scraper_run (cfg : Config) (pages : Nat → Option (Bool × List SearchItem))
    (fuel : Nat) (sOut : String → PageResult SellerPage)
    (pOut : String → PageResult ProductPage) :
    Option (Except RunExn ScrapeResult) :=
  match discover_sellers pages cfg.limit cfg.max_suppliers fuel with
  | (none, _) => none
  | (some (.error .nav), _) => some (.error .other)
  | (some (.error .antibot), _) =>
    if cfg.abort_on_antibot then some (.error .antibot)
    else some (runScraper cfg [] sOut pOut)
  | (some (.ok info), _) => some (runScraper cfg info sOut pOut)

theorem discoverLoop_ok_len (pages : Nat → Option (Bool × List SearchItem))
    (limit maxSup : Nat) :
    ∀ (fuel pageNum processed : Nat) (seen : List String) (sellers : List Preview)
      (fetched : Nat) (info : List Preview) (k : Nat),
      discoverLoop pages limit maxSup fuel pageNum processed seen sellers fetched =
        (some (.ok info), k) → info.length ≤ maxSup := by
  intro fuel
  induction fuel with
  | zero =>
    intro pageNum processed seen sellers fetched info k h
    simp [discoverLoop] at h
  | succ fuel ih =>
    intro pageNum processed seen sellers fetched info k h
    rw [discoverLoop_succ] at h
    split at h
    · split at h
      · simp at h
      · split at h
        · simp at h
        · exact ih _ _ _ _ _ _ _ h
    · simp only [Prod.mk.injEq, Option.some.injEq, Except.ok.injEq] at h
      rw [← h.1]
      exact List.length_take_le maxSup sellers

theorem handle_seller_ok (cfg : Config) (sOut : String → PageResult SellerPage)
    (pOut : String → PageResult ProductPage) (n u : String) (ps : List String)
    (s : Seller) (h : handle_seller cfg sOut pOut n u ps = .ok s) :
    s.products = gatherOk ((ps.take cfg.max_products_per_seller).map
      (scrape_product pOut)) := by
  unfold handle_seller at h
  cases hs : scrape_seller sOut n u with
  | error e => rw [hs] at h; simp at h
  | ok seller =>
    rw [hs] at h
    obtain rfl := (Except.ok.inj h).symm
    rfl

theorem mem_gatherOk_scrape (pOut : String → PageResult ProductPage)
    (urls : List String) (p : Product)
    (h : p ∈ gatherOk (urls.map (scrape_product pOut))) :
    p.product_id = (parse_product_id p.product_url).getD "" := by
  unfold gatherOk at h
  rw [List.mem_filterMap] at h
  obtain ⟨r, hr, hmatch⟩ := h
  rw [List.mem_map] at hr
  obtain ⟨url, _hurl, rfl⟩ := hr
  cases hsp : scrape_product pOut url with
  | error e => rw [hsp] at hmatch; simp at hmatch
  | ok q =>
    rw [hsp] at hmatch
    have hqp : q = p := by simpa using hmatch
    subst hqp
    unfold scrape_product at hsp
    cases hp : pOut url with
    | err => rw [hp] at hsp; simp at hsp
    | antibot => rw [hp] at hsp; simp at hsp
    | ok pg =>
      rw [hp] at hsp
      cases Except.ok.inj hsp
      rfl

theorem safe_handle_ok_some (cfg : Config) (sOut : String → PageResult SellerPage)
    (pOut : String → PageResult ProductPage) (n u : String) (ps : List String)
    (s : Seller)
    (h : safe_handle_seller cfg sOut pOut n u ps = .ok (some s)) :
    handle_seller cfg sOut pOut n u ps = .ok s := by
  unfold safe_handle_seller at h
  cases hh : handle_seller cfg sOut pOut n u ps with
  | ok s' =>
    rw [hh] at h
    obtain rfl := Option.some.inj (Except.ok.inj h)
    rfl
  | error e =>
    rw [hh] at h
    cases e with
    | antibot =>
      by_cases hab : cfg.abort_on_antibot
      · rw [if_pos hab] at h
        simp at h
      · rw [if_neg hab] at h
        simp at h
    | other => simp at h

theorem gatherSellers_facts (cfg : Config) (sOut : String → PageResult SellerPage)
    (pOut : String → PageResult ProductPage) :
    ∀ (info : List (String × String × List String)) (ss : List Seller),
      gatherSellers cfg sOut pOut info = .ok ss →
      ss.length ≤ info.length ∧
      ∀ s ∈ ss, s.products.length ≤ cfg.max_products_per_seller ∧
        ∀ p ∈ s.products, p.product_id = (parse_product_id p.product_url).getD "" := by
  intro info
  induction info with
  | nil =>
    intro ss h
    simp only [gatherSellers] at h
    obtain rfl := (Except.ok.inj h).symm
    simp
  | cons hd tl ih =>
    obtain ⟨n, u, ps⟩ := hd
    intro ss h
    have hstep : gatherSellers cfg sOut pOut ((n, u, ps) :: tl) =
        match safe_handle_seller cfg sOut pOut n u ps with
        | .error e => .error e
        | .ok s? =>
          match gatherSellers cfg sOut pOut tl with
          | .error e => .error e
          | .ok tl' =>
            .ok (match s? with
              | some s => s :: tl'
              | none => tl') := rfl
    rw [hstep] at h
    cases hsh : safe_handle_seller cfg sOut pOut n u ps with
    | error e => rw [hsh] at h; simp at h
    | ok s? =>
      rw [hsh] at h
      cases hg : gatherSellers cfg sOut pOut tl with
      | error e => rw [hg] at h; simp at h
      | ok tl' =>
        rw [hg] at h
        obtain ⟨htl_len, htl_facts⟩ := ih tl' hg
        cases s? with
        | none =>
          obtain rfl := (Except.ok.inj h).symm
          exact ⟨by simpa using Nat.le_succ_of_le htl_len, htl_facts⟩
        | some s =>
          obtain rfl := (Except.ok.inj h).symm
          have hh := safe_handle_ok_some cfg sOut pOut n u ps s hsh
          have hprod := handle_seller_ok cfg sOut pOut n u ps s hh
          refine ⟨by simpa using htl_len, ?_⟩
          intro s' hs'
          rcases List.mem_cons.mp hs' with rfl | hmem
          · constructor
            · rw [hprod]
              calc (gatherOk ((ps.take cfg.max_products_per_seller).map
                    (scrape_product pOut))).length
                  ≤ ((ps.take cfg.max_products_per_seller).map
                    (scrape_product pOut)).length := List.length_filterMap_le _ _
                _ = (ps.take cfg.max_products_per_seller).length := List.length_map _ _
                _ ≤ cfg.max_products_per_seller := List.length_take_le _ _
            · intro p hp
              rw [hprod] at hp
              exact mem_gatherOk_scrape pOut _ p hp
          · exact htl_facts s' hmem

/-- C2: for every completed run, the returned `ScrapeResult` has at most
`max_suppliers` suppliers, and every seller in it has at most
`max_products_per_seller` products. -/
theorem result_bounds (cfg : Config) (pages : Nat → Option (Bool × List SearchItem))
    (fuel : Nat) (sOut : String → PageResult SellerPage)
    (pOut : String → PageResult ProductPage) (res : ScrapeResult)
    (h : scraper_run cfg pages fuel sOut pOut = some (.ok res)) :
    res.suppliers.length ≤ cfg.max_suppliers ∧
    ∀ s ∈ res.suppliers, s.products.length ≤ cfg.max_products_per_seller := by
  unfold scraper_run at h
  rcases hd : discover_sellers pages cfg.limit cfg.max_suppliers fuel with ⟨r?, k⟩
  rw [hd] at h
  cases r? with
  | none => simp at h
  | some r =>
    cases r with
    | error e =>
      cases e with
      | nav => simp at h
      | antibot =>
        by_cases hab : cfg.abort_on_antibot
        · rw [if_pos hab] at h
          simp at h
        · rw [if_neg hab] at h
          have hr : runScraper cfg [] sOut pOut = .ok res := Option.some.inj h
          unfold runScraper gatherSellers at hr
          obtain rfl := (Except.ok.inj hr).symm
          simp
    | ok info =>
      have hr : runScraper cfg info sOut pOut = .ok res := Option.some.inj h
      have hlen_info : info.length ≤ cfg.max_suppliers := by
        apply discoverLoop_ok_len pages cfg.limit cfg.max_suppliers fuel 1 0 [] [] 0 info k
        exact hd
      unfold runScraper at hr
      cases hg : gatherSellers cfg sOut pOut info with
      | error e => rw [hg] at hr; simp at hr
      | ok ss =>
        rw [hg] at hr
        obtain rfl := (Except.ok.inj hr).symm
        obtain ⟨hl, hf⟩ := gatherSellers_facts cfg sOut pOut info ss hg
        exact ⟨le_trans hl hlen_info, fun s hs => (hf s hs).1⟩

/-- C8 (amended): every product placed into the result tree has
`product_id = parse_product_id(product_url) or ""` — the digit run of the
URL when there is one and the empty string otherwise; no validity check
excludes products whose URL yields no ID. -/
theorem product_id_from_url (cfg : Config)
    (info : List (String × String × List String))
    (sOut : String → PageResult SellerPage)
    (pOut : String → PageResult ProductPage) (res : ScrapeResult)
    (h : runScraper cfg info sOut pOut = .ok res) :
    ∀ s ∈ res.suppliers, ∀ p ∈ s.products,
      p.product_id = (parse_product_id p.product_url).getD "" := by
  unfold runScraper at h
  cases hg : gatherSellers cfg sOut pOut info with
  | error e => rw [hg] at h; simp at h
  | ok ss =>
    rw [hg] at h
    obtain rfl := (Except.ok.inj h).symm
    intro s hs p hp
    exact (((gatherSellers_facts cfg sOut pOut info ss hg).2 s hs).2) p hp

theorem handle_seller_other_err (cfg : Config) (sOut : String → PageResult SellerPage)
    (pOut : String → PageResult ProductPage) (n u : String) (ps : List String)
    (h : handle_seller cfg sOut pOut n u ps = .error .other) :
    sOut u = .err := by
  unfold handle_seller scrape_seller at h
  cases hsu : sOut u with
  | err => rfl
  | antibot => rw [hsu] at h; simp at h
  | ok sp => rw [hsu] at h; simp at h

theorem gatherSellers_no_err (cfg : Config) (sOut : String → PageResult SellerPage)
    (pOut : String → PageResult ProductPage)
    (hab : cfg.abort_on_antibot = false) :
    ∀ info : List (String × String × List String),
      (∀ n u ps, (n, u, ps) ∈ info → sOut u ≠ .err) →
      gatherSellers cfg sOut pOut info =
        .ok (info.filterMap fun x =>
          exceptOk (handle_seller cfg sOut pOut x.1 x.2.1 x.2.2)) := by
  intro info
  induction info with
  | nil => intro _; rfl
  | cons hd tl ih =>
    obtain ⟨n, u, ps⟩ := hd
    intro hs
    have hu : sOut u ≠ .err := hs n u ps (by simp)
    have htl := ih fun n' u' ps' hmem => hs n' u' ps' (by simp [hmem])
    have hstep : safe_handle_seller cfg sOut pOut n u ps =
        .ok (exceptOk (handle_seller cfg sOut pOut n u ps)) := by
      unfold safe_handle_seller exceptOk
      cases hh : handle_seller cfg sOut pOut n u ps with
      | ok s => rfl
      | error e =>
        cases e with
        | other => exact absurd (handle_seller_other_err cfg sOut pOut n u ps hh) hu
        | antibot => simp [hab]
    have hgs : gatherSellers cfg sOut pOut ((n, u, ps) :: tl) =
        match safe_handle_seller cfg sOut pOut n u ps with
        | .error e => .error e
        | .ok s? =>
          match gatherSellers cfg sOut pOut tl with
          | .error e => .error e
          | .ok tl' =>
            .ok (match s? with
              | some s => s :: tl'
              | none => tl') := rfl
    rw [hgs, hstep, htl]
    cases hE : exceptOk (handle_seller cfg sOut pOut n u ps) with
    | some s => simp [List.filterMap_cons, hE]
    | none => simp [List.filterMap_cons, hE]

/-- C1 (amended): when `abort_on_antibot` is false, a run whose seller-page
fetches raise at most `AntiBotDetected` (never another exception) returns
normally: anti-bot sellers are skipped with a warning, every other seller
appears, and per-product failures of any kind are silently dropped from
that seller's product list.  (The unamended claim fails because
`safe_handle_seller` catches only `AntiBotDetected`: any other per-seller
exception propagates through the gather and the run raises — see the
counterexample.) -/
theorem run_partial_failure (cfg : Config)
    (info : List (String × String × List String))
    (sOut : String → PageResult SellerPage)
    (pOut : String → PageResult ProductPage)
    (hab : cfg.abort_on_antibot = false)
    (hs : ∀ n u ps, (n, u, ps) ∈ info → sOut u ≠ .err) :
    runScraper cfg info sOut pOut =
      .ok { query := cfg.query,
            suppliers := info.filterMap fun x =>
              exceptOk (handle_seller cfg sOut pOut x.1 x.2.1 x.2.2) } := by
  unfold runScraper
  rw [gatherSellers_no_err cfg sOut pOut hab info hs]

/-! ### Concrete fixtures -/

/-- A seller page with nothing extracted. -/
def spEmpty : SellerPage := ⟨none, none, none, [], none, none⟩

/-- A product page with nothing extracted. -/
def ppEmpty : ProductPage := ⟨none, none, none, none, none, none, []⟩

/-- A run configuration with `abort_on_antibot = False`. -/
def cfgStd : Config :=
  { query := "wireless earbuds", limit := 2, max_suppliers := 2,
    max_products_per_seller := 2, abort_on_antibot := false, concurrency := 3 }

/-- A single search page carrying two attributable items from two distinct
stores. -/
def pagesTwoSellers : Nat → Option (Bool × List SearchItem) := fun _ =>
  some (false,
    [⟨some "https://x/item/1005001111111111.html",
      some "https://a.com/store/1", "A"⟩,
     ⟨some "https://x/item/1005002222222222.html",
      some "https://a.com/store/2", "B"⟩])

/-- Seller oracle for which store 2 fails with a non-anti-bot exception. -/
def sOutStore2Err : String → PageResult SellerPage := fun u =>
  if u = "https://a.com/store/2" then .err else .ok spEmpty

/-- Seller oracle with every fetch succeeding. -/
def sOutAllOk : String → PageResult SellerPage := fun _ => .ok spEmpty

/-- Product oracle with every fetch succeeding. -/
def pOutAllOk : String → PageResult ProductPage := fun _ => .ok ppEmpty

/-- C1 counterexample: with `abort_on_antibot = False`, a run with two
discovered sellers in which only the second seller's page fetch raises a
transport-style exception does NOT degrade to omission: the exception
escapes `safe_handle_seller` (which catches only `AntiBotDetected`),
propagates through the gather, and `Scraper.run` raises — no
`ScrapeResult` with the surviving sibling is returned. -/
theorem run_seller_failure_cex :
    scraper_run cfgStd pagesTwoSellers 2 sOutStore2Err pOutAllOk =
      some (.error .other) := rfl

theorem run_partial_failure_witness :
    runScraper cfgStd
      [("A", "https://a.com/store/1", ["https://x/item/1005001111111111.html"]),
       ("B", "https://a.com/store/2", [])]
      (fun u => if u = "https://a.com/store/2" then .antibot else .ok spEmpty)
      (fun _ => .err) =
      .ok { query := "wireless earbuds",
            suppliers := [{ seller_name := "A",
                            seller_url := "https://a.com/store/1",
                            seller_rating := none, num_followers := none,
                            store_location := none, seller_badges := [],
                            years_on_platform := none, total_reviews := none,
                            products := [] }] } := by
  have h := run_partial_failure cfgStd
    [("A", "https://a.com/store/1", ["https://x/item/1005001111111111.html"]),
     ("B", "https://a.com/store/2", [])]
    (fun u => if u = "https://a.com/store/2" then .antibot else .ok spEmpty)
    (fun _ => .err) rfl
    (by
      intro n u ps hm
      simp only [List.mem_cons, List.not_mem_nil, or_false, Prod.mk.injEq] at hm
      rcases hm with ⟨_, h2, _⟩ | ⟨_, h2, _⟩ <;> subst h2 <;> decide)
  exact h.trans rfl

/-- Result of a run projected to the product ids it contains. -/
def resultProductIds (r : Except RunExn ScrapeResult) : Option (List (List String)) :=
  match r with
  | .error _ => none
  | .ok res => some (res.suppliers.map fun s => s.products.map Product.product_id)

/-- C8 counterexample: a product whose URL contains no `item/` digit run is
still scraped into the result tree, with `product_id = ""` — there is no
validity filter (`product.py` line 31: `pid = parse_product_id(url) or ""`,
and the product is appended unconditionally). -/
theorem product_id_cex :
    resultProductIds (runScraper cfgStd
      [("S", "https://a.com/store/9", ["https://example.com/nopid"])]
      sOutAllOk pOutAllOk) = some [[""]] := rfl

/-- A product record with only URL and id set, as produced by a fetch that
extracted nothing else. -/
def prodOf (url pid : String) : Product :=
  ⟨"", url, pid, none, none, none, none, none, []⟩

/-- A seller record with only name, URL and products set. -/
def sellerOf (n u : String) (ps : List Product) : Seller :=
  ⟨n, u, none, none, none, [], none, none, ps⟩

/-- The result of the all-successful two-seller run. -/
def resTwo : ScrapeResult :=
  { query := "wireless earbuds",
    suppliers :=
      [sellerOf "A" "https://a.com/store/1"
        [prodOf "https://x/item/1005001111111111.html" "1005001111111111"],
       sellerOf "B" "https://a.com/store/2"
        [prodOf "https://x/item/1005002222222222.html" "1005002222222222"]] }

theorem result_bounds_witness :
    resTwo.suppliers.length ≤ 2 ∧
    (sellerOf "A" "https://a.com/store/1"
      [prodOf "https://x/item/1005001111111111.html"
        "1005001111111111"]).products.length ≤ 2 :=
  ⟨(result_bounds cfgStd pagesTwoSellers 2 sOutAllOk pOutAllOk resTwo rfl).1,
   (result_bounds cfgStd pagesTwoSellers 2 sOutAllOk pOutAllOk resTwo rfl).2 _
     (List.mem_cons_self _ _)⟩

/-- The result of the run whose single product URL has no parsable id. -/
def resNoPid : ScrapeResult :=
  { query := "wireless earbuds",
    suppliers := [sellerOf "S" "https://a.com/store/9"
      [prodOf "https://example.com/nopid" ""]] }

theorem product_id_from_url_witness :
    (prodOf "https://example.com/nopid" "").product_id =
      (parse_product_id (prodOf "https://example.com/nopid" "").product_url).getD "" :=
  product_id_from_url cfgStd
    [("S", "https://a.com/store/9", ["https://example.com/nopid"])]
    sOutAllOk pOutAllOk resNoPid rfl
    (sellerOf "S" "https://a.com/store/9" [prodOf "https://example.com/nopid" ""])
    (List.mem_cons_self _ _)
    (prodOf "https://example.com/nopid" "")
    (List.mem_cons_self _ _)

/-! ## Semaphore guarding of fetches (main.py / search.py / seller.py /
product.py)

The acquire/fetch/release event structure of one run.  In `Scraper.run`,
`scrape_seller` is awaited inside `async with self._sem` and so is each
`scrape_product` (main.py lines 75-76 and 86-87); `discover_sellers`,
however, is awaited at main.py line 58 with no semaphore, and search.py
acquires none itself.  A task's events are listed in program order; `rel`
is emitted even when the guarded call raises (`async with` releases on
exceptions), and each page visit is recorded as one `fetch` of its kind. -/

/-- The kind of page a fetch targets. -/
inductive FetchKind where
  | search
  | seller
  | product
deriving DecidableEq

/-- Semaphore and network events of the run. -/
inductive Ev where
  | acq
  | rel
  | fetch (k : FetchKind)
deriving DecidableEq

/-- Events of `safe_handle_seller` for one preview: the seller-page fetch
under the semaphore, then (when the seller page was scraped successfully)
one guarded fetch per retained product URL. -/
def sellerTrace (cfg : Config) (sOut : String → PageResult SellerPage) :
    String × String × List String → List Ev
  | (_, u, ps) =>
    [Ev.acq, Ev.fetch .seller, Ev.rel] ++
    (match sOut u with
     | .ok _ =>
       ((ps.take cfg.max_products_per_seller).map
         fun _ => [Ev.acq, Ev.fetch .product, Ev.rel]).flatten
     | _ => [])

/-- Events of one `Scraper.run`: one unguarded `fetch search` per search
page visited by discovery, then the seller tasks.  `none` when the
discovery loop was still running after `fuel` pages. -/
def runTrace (cfg : Config) (pages : Nat → Option (Bool × List SearchItem))
    (fuel : Nat) (sOut : String → PageResult SellerPage) : Option (List Ev) :=
  match discover_sellers pages cfg.limit cfg.max_suppliers fuel with
  | (none, _) => none
  | (some (.error _), pf) => some (List.replicate pf (Ev.fetch .search))
  | (some (.ok info), pf) =>
    some (List.replicate pf (Ev.fetch .search) ++
      (info.map (sellerTrace cfg sOut)).flatten)

/-- Checks that every `fetch` event occurs while the semaphore is held
(`d` is the number of acquisitions currently held by the run's tasks). -/
def allFetchesGuarded : Nat → List Ev → Bool
  | _, [] => true
  | d, Ev.acq :: r => allFetchesGuarded (d + 1) r
  | d, Ev.rel :: r => allFetchesGuarded (d - 1) r
  | d, Ev.fetch _ :: r => decide (0 < d) && allFetchesGuarded d r

/-- Checks that every seller-page and product-page `fetch` event occurs
while the semaphore is held (search-page fetches exempt). -/
def sellerProductFetchesGuarded : Nat → List Ev → Bool
  | _, [] => true
  | d, Ev.acq :: r => sellerProductFetchesGuarded (d + 1) r
  | d, Ev.rel :: r => sellerProductFetchesGuarded (d - 1) r
  | d, Ev.fetch FetchKind.search :: r => sellerProductFetchesGuarded d r
  | d, Ev.fetch _ :: r => decide (0 < d) && sellerProductFetchesGuarded d r

theorem spg_replicate_search (d : Nat) :
    ∀ (n : Nat) (r : List Ev),
      sellerProductFetchesGuarded d (List.replicate n (Ev.fetch .search) ++ r) =
        sellerProductFetchesGuarded d r := by
  intro n
  induction n with
  | zero => intro r; rfl
  | succ n ih =>
    intro r
    rw [List.replicate_succ, List.cons_append]
    show sellerProductFetchesGuarded d (List.replicate n (Ev.fetch .search) ++ r) = _
    exact ih r

theorem spg_product_blocks (ps : List String) :
    ∀ r : List Ev,
      sellerProductFetchesGuarded 0
        ((ps.map fun _ => [Ev.acq, Ev.fetch .product, Ev.rel]).flatten ++ r) =
        sellerProductFetchesGuarded 0 r := by
  induction ps with
  | nil => intro r; rfl
  | cons a t ih =>
    intro r
    show sellerProductFetchesGuarded 0
        ((t.map fun _ => [Ev.acq, Ev.fetch .product, Ev.rel]).flatten ++ r) =
      sellerProductFetchesGuarded 0 r
    exact ih r

theorem spg_seller_trace (cfg : Config) (sOut : String → PageResult SellerPage)
    (x : String × String × List String) :
    ∀ r : List Ev,
      sellerProductFetchesGuarded 0 (sellerTrace cfg sOut x ++ r) =
        sellerProductFetchesGuarded 0 r := by
  obtain ⟨n, u, ps⟩ := x
  intro r
  cases hsu : sOut u with
  | ok sp =>
    show sellerProductFetchesGuarded 0
      (([Ev.acq, Ev.fetch .seller, Ev.rel] ++
        (match sOut u with
         | .ok _ =>
           ((ps.take cfg.max_products_per_seller).map
             fun _ => [Ev.acq, Ev.fetch .product, Ev.rel]).flatten
         | _ => [])) ++ r) = sellerProductFetchesGuarded 0 r
    rw [hsu]
    show sellerProductFetchesGuarded 0
      (((ps.take cfg.max_products_per_seller).map
        fun _ => [Ev.acq, Ev.fetch .product, Ev.rel]).flatten ++ r) =
      sellerProductFetchesGuarded 0 r
    exact spg_product_blocks _ r
  | antibot =>
    show sellerProductFetchesGuarded 0
      (([Ev.acq, Ev.fetch .seller, Ev.rel] ++
        (match sOut u with
         | .ok _ =>
           ((ps.take cfg.max_products_per_seller).map
             fun _ => [Ev.acq, Ev.fetch .product, Ev.rel]).flatten
         | _ => [])) ++ r) = sellerProductFetchesGuarded 0 r
    rw [hsu]
    rfl
  | err =>
    show sellerProductFetchesGuarded 0
      (([Ev.acq, Ev.fetch .seller, Ev.rel] ++
        (match sOut u with
         | .ok _ =>
           ((ps.take cfg.max_products_per_seller).map
             fun _ => [Ev.acq, Ev.fetch .product, Ev.rel]).flatten
         | _ => [])) ++ r) = sellerProductFetchesGuarded 0 r
    rw [hsu]
    rfl

theorem spg_join_sellers (cfg : Config) (sOut : String → PageResult SellerPage) :
    ∀ info : List (String × String × List String),
      sellerProductFetchesGuarded 0
        ((info.map (sellerTrace cfg sOut)).flatten) = true := by
  intro info
  induction info with
  | nil => rfl
  | cons x t ih =>
    have h1 : (List.map (sellerTrace cfg sOut) (x :: t)).flatten =
        sellerTrace cfg sOut x ++ (t.map (sellerTrace cfg sOut)).flatten := by
      simp [List.flatten]
    rw [h1, spg_seller_trace cfg sOut x]
    exact ih

/-- C9 (amended): in the event traces of `Scraper.run`, every seller-page
and product-page fetch happens while holding the shared semaphore (so those
fetches respect the concurrency bound), but search-page fetches issued by
discovery never acquire the semaphore — they run serially before the
fan-out, outside the gate (see the counterexample). -/
theorem seller_product_fetches_guarded (cfg : Config)
    (pages : Nat → Option (Bool × List SearchItem)) (fuel : Nat)
    (sOut : String → PageResult SellerPage) (tr : List Ev)
    (h : runTrace cfg pages fuel sOut = some tr) :
    sellerProductFetchesGuarded 0 tr = true := by
  unfold runTrace at h
  rcases hd : discover_sellers pages cfg.limit cfg.max_suppliers fuel with ⟨r?, pf⟩
  rw [hd] at h
  cases r? with
  | none => simp at h
  | some r =>
    cases r with
    | error e =>
      have htr : List.replicate pf (Ev.fetch .search) = tr := Option.some.inj h
      subst htr
      have h2 := spg_replicate_search 0 pf []
      rw [List.append_nil] at h2
      rw [h2]
      rfl
    | ok info =>
      have htr : List.replicate pf (Ev.fetch .search) ++
          (info.map (sellerTrace cfg sOut)).flatten = tr := Option.some.inj h
      subst htr
      rw [spg_replicate_search]
      exact spg_join_sellers cfg sOut info

/-- C9 counterexample: the run's very first network operation — the search
page fetch of discovery — happens with the semaphore not held, so it is
false that every fetch operation acquires the semaphore before network
I/O. -/
theorem semaphore_guard_cex :
    (runTrace cfgStd pagesTwoSellers 2 sOutAllOk).map (allFetchesGuarded 0) =
      some false := rfl

theorem seller_product_fetches_guarded_witness :
    sellerProductFetchesGuarded 0
      [Ev.fetch .search,
       Ev.acq, Ev.fetch .seller, Ev.rel, Ev.acq, Ev.fetch .product, Ev.rel,
       Ev.acq, Ev.fetch .seller, Ev.rel, Ev.acq, Ev.fetch .product, Ev.rel] =
      true :=
  seller_product_fetches_guarded cfgStd pagesTwoSellers 2 sOutAllOk
    [Ev.fetch .search,
     Ev.acq, Ev.fetch .seller, Ev.rel, Ev.acq, Ev.fetch .product, Ev.rel,
     Ev.acq, Ev.fetch .seller, Ev.rel, Ev.acq, Ev.fetch .product, Ev.rel] rfl

end AliExpress
